import Mathlib

/-!
Verification of the Skylogic air-quality / aviation-safety pipeline.

Shallow embedding of the feature-engineering, horizon-label construction,
AQI breakpoint interpolation, inference-time feature reconciliation, alert
generation and model-artifact load/save logic of the repository
(`forecasting_system.py`, `ml_prediction_service.py`,
`enhanced_aviation_ml.py`).  Machine floats are modelled by exact rationals;
pandas columns by Lean lists; missing values (NaN) by `Option`.
-/

namespace Skylogic

/-! ## AQI breakpoint interpolation -/

/-- One row `(bp_low, bp_high, aqi_low, aqi_high)` of an EPA breakpoint table. -/
structure Breakpoint where
  bpLow : ℚ
  bpHigh : ℚ
  aqiLow : ℚ
  aqiHigh : ℚ
deriving DecidableEq, Repr

/-- The linear interpolation
`(aqi_high - aqi_low) / (bp_high - bp_low) * (c - bp_low) + aqi_low`
used inside every `calculate_aqi` variant. -/
def interpAqi (b : Breakpoint) (c : ℚ) : ℚ :=
  (b.aqiHigh - b.aqiLow) / (b.bpHigh - b.bpLow) * (c - b.bpLow) + b.aqiLow

/-- The PM2.5 breakpoint table hard-coded in `forecasting_system.calculate_aqi`
and `ml_prediction_service.calculate_aqi` (floats written as exact rationals). -/
def pm25Breakpoints : List Breakpoint :=
  [⟨0, 12, 0, 50⟩, ⟨121/10, 354/10, 51, 100⟩, ⟨355/10, 554/10, 101, 150⟩,
   ⟨555/10, 1504/10, 151, 200⟩, ⟨1505/10, 2504/10, 201, 300⟩,
   ⟨2505/10, 3504/10, 301, 400⟩]

/-- The PM10 breakpoint table hard-coded in the same two functions. -/
def pm10Breakpoints : List Breakpoint :=
  [⟨0, 54, 0, 50⟩, ⟨55, 154, 51, 100⟩, ⟨155, 254, 101, 150⟩,
   ⟨255, 354, 151, 200⟩, ⟨355, 424, 201, 300⟩, ⟨425, 504, 301, 400⟩]

/-- First bracket of the table containing `c` (`bp_low ≤ c ≤ bp_high`), if any:
the `for ... if ...` scan shared by both `calculate_aqi` loops. -/
def findBracket (c : ℚ) : List Breakpoint → Option Breakpoint
  | [] => none
  | b :: rest => if b.bpLow ≤ c ∧ c ≤ b.bpHigh then some b else findBracket c rest

/-- `forecasting_system.AirQualityForecaster.calculate_aqi`: return the raw
interpolated value for the first matching bracket; fall through to `500`. -/
def calculateAqiForecast (c : ℚ) : List Breakpoint → ℚ
  | [] => 500
  | b :: rest =>
    if b.bpLow ≤ c ∧ c ≤ b.bpHigh then interpAqi b c else calculateAqiForecast c rest

/-- Python built-in `round` on a non-negative-denominator rational: round half
to even (banker's rounding), as CPython does for floats. -/
def pyRound (q : ℚ) : ℤ :=
  let f : ℤ := ⌊q⌋
  let r : ℚ := q - f
  if r < 1/2 then f
  else if 1/2 < r then f + 1
  else if f % 2 = 0 then f else f + 1

/-- `breakpoints[-1][1]`: the `bp_high` of the last bracket (0 on an empty table). -/
def lastBpHigh (tab : List Breakpoint) : ℚ :=
  ((tab.getLast?).map Breakpoint.bpHigh).getD 0

/-- The early-return loop of `ml_prediction_service.calculate_aqi`: `round`ed
interpolation of the first matching bracket, `none` if the loop falls through. -/
def aqiLoopDashboard (c : ℚ) : List Breakpoint → Option ℚ
  | [] => none
  | b :: rest =>
    if b.bpLow ≤ c ∧ c ≤ b.bpHigh then some (pyRound (interpAqi b c) : ℚ)
    else aqiLoopDashboard c rest

/-- `ml_prediction_service.DashboardMLPredictor.calculate_aqi`: first matching
bracket wins and the result is `round`ed; otherwise `500` above the last
`bp_high` and `0` below/between brackets. -/
def calculateAqiDashboard (c : ℚ) (tab : List Breakpoint) : ℚ :=
  match aqiLoopDashboard c tab with
  | some a => a
  | none => if lastBpHigh tab < c then 500 else 0

/-- Bracket at index `i` of a table (dummy bracket out of range). -/
def bpAt (tab : List Breakpoint) (i : ℕ) : Breakpoint :=
  tab.getD i ⟨0, 0, 0, 0⟩

lemma calculateAqiForecast_of_findBracket_some {c : ℚ} {tab : List Breakpoint}
    {b : Breakpoint} (h : findBracket c tab = some b) :
    calculateAqiForecast c tab = interpAqi b c := by
  induction tab with
  | nil => simp [findBracket] at h
  | cons hd tl ih =>
    by_cases hc : hd.bpLow ≤ c ∧ c ≤ hd.bpHigh
    · simp [findBracket, hc] at h
      subst h
      simp [calculateAqiForecast, hc]
    · simp [findBracket, hc] at h
      simpa [calculateAqiForecast, hc] using ih h

lemma calculateAqiForecast_of_findBracket_none {c : ℚ} {tab : List Breakpoint}
    (h : findBracket c tab = none) :
    calculateAqiForecast c tab = 500 := by
  induction tab with
  | nil => simp [calculateAqiForecast]
  | cons hd tl ih =>
    by_cases hc : hd.bpLow ≤ c ∧ c ≤ hd.bpHigh
    · simp [findBracket, hc] at h
    · simp [findBracket, hc] at h
      simpa [calculateAqiForecast, hc] using ih h

lemma aqiLoopDashboard_of_findBracket_some {c : ℚ} {tab : List Breakpoint}
    {b : Breakpoint} (h : findBracket c tab = some b) :
    aqiLoopDashboard c tab = some (pyRound (interpAqi b c) : ℚ) := by
  induction tab with
  | nil => simp [findBracket] at h
  | cons hd tl ih =>
    by_cases hc : hd.bpLow ≤ c ∧ c ≤ hd.bpHigh
    · simp [findBracket, hc] at h
      subst h
      simp [aqiLoopDashboard, hc]
    · simp [findBracket, hc] at h
      simpa [aqiLoopDashboard, hc] using ih h

lemma aqiLoopDashboard_of_findBracket_none {c : ℚ} {tab : List Breakpoint}
    (h : findBracket c tab = none) :
    aqiLoopDashboard c tab = none := by
  induction tab with
  | nil => simp [aqiLoopDashboard]
  | cons hd tl ih =>
    by_cases hc : hd.bpLow ≤ c ∧ c ≤ hd.bpHigh
    · simp [findBracket, hc] at h
    · simp [findBracket, hc] at h
      simpa [aqiLoopDashboard, hc] using ih h

lemma findBracket_pm25_eq_none_of_gt {c : ℚ} (hc : (3504/10 : ℚ) < c) :
    findBracket c pm25Breakpoints = none := by
  have h1 : ¬((0 : ℚ) ≤ c ∧ c ≤ 12) := by rintro ⟨-, h⟩; linarith
  have h2 : ¬((121/10 : ℚ) ≤ c ∧ c ≤ 354/10) := by rintro ⟨-, h⟩; linarith
  have h3 : ¬((355/10 : ℚ) ≤ c ∧ c ≤ 554/10) := by rintro ⟨-, h⟩; linarith
  have h4 : ¬((555/10 : ℚ) ≤ c ∧ c ≤ 1504/10) := by rintro ⟨-, h⟩; linarith
  have h5 : ¬((1505/10 : ℚ) ≤ c ∧ c ≤ 2504/10) := by rintro ⟨-, h⟩; linarith
  have h6 : ¬((2505/10 : ℚ) ≤ c ∧ c ≤ 3504/10) := by rintro ⟨-, h⟩; linarith
  simp [pm25Breakpoints, findBracket, h1, h2, h3, h4, h5, h6]

lemma findBracket_pm10_eq_none_of_gt {c : ℚ} (hc : (504 : ℚ) < c) :
    findBracket c pm10Breakpoints = none := by
  have h1 : ¬((0 : ℚ) ≤ c ∧ c ≤ 54) := by rintro ⟨-, h⟩; linarith
  have h2 : ¬((55 : ℚ) ≤ c ∧ c ≤ 154) := by rintro ⟨-, h⟩; linarith
  have h3 : ¬((155 : ℚ) ≤ c ∧ c ≤ 254) := by rintro ⟨-, h⟩; linarith
  have h4 : ¬((255 : ℚ) ≤ c ∧ c ≤ 354) := by rintro ⟨-, h⟩; linarith
  have h5 : ¬((355 : ℚ) ≤ c ∧ c ≤ 424) := by rintro ⟨-, h⟩; linarith
  have h6 : ¬((425 : ℚ) ≤ c ∧ c ≤ 504) := by rintro ⟨-, h⟩; linarith
  simp [pm10Breakpoints, findBracket, h1, h2, h3, h4, h5, h6]

/-- C4 (counterexample): in the PM2.5 table actually used by `calculate_aqi`,
bracket 0 and bracket 1 do not share a boundary (`bp_high = 12` vs
`bp_low = 12.1`), and at `c = 12` the two brackets' interpolation formulas
give different AQI values (50 vs 51 - 49/233), so the claimed boundary
continuity fails on the code's tables. -/
theorem aqiBoundary_counterexample :
    (bpAt pm25Breakpoints 0).bpHigh ≠ (bpAt pm25Breakpoints 1).bpLow ∧
    interpAqi (bpAt pm25Breakpoints 0) (bpAt pm25Breakpoints 0).bpHigh ≠
      interpAqi (bpAt pm25Breakpoints 1) (bpAt pm25Breakpoints 0).bpHigh := by
  refine ⟨?_, ?_⟩ <;> norm_num [bpAt, pm25Breakpoints, List.getD, interpAqi]

/-- C4 (amended): in both breakpoint tables used by `calculate_aqi`, every
adjacent pair of brackets satisfies `bp_high i < bp_low (i+1)`, so no
concentration lies at a shared bracket boundary (the premise of the continuity
claim is never realized); moreover at each `bp_high i` the interpolation
formulas of brackets `i` and `i+1` disagree, so the piecewise function is not
continuous across brackets. -/
theorem aqiBrackets_disjoint_and_jump :
    List.Chain' (fun a b => a.bpHigh < b.bpLow) pm25Breakpoints ∧
    List.Chain' (fun a b => a.bpHigh < b.bpLow) pm10Breakpoints ∧
    (∀ i : Fin 5,
      interpAqi (bpAt pm25Breakpoints i.val) (bpAt pm25Breakpoints i.val).bpHigh ≠
        interpAqi (bpAt pm25Breakpoints (i.val + 1)) (bpAt pm25Breakpoints i.val).bpHigh) ∧
    (∀ i : Fin 5,
      interpAqi (bpAt pm10Breakpoints i.val) (bpAt pm10Breakpoints i.val).bpHigh ≠
        interpAqi (bpAt pm10Breakpoints (i.val + 1)) (bpAt pm10Breakpoints i.val).bpHigh) := by
  refine ⟨?_, ?_, ?_, ?_⟩
  · norm_num [pm25Breakpoints, List.chain'_cons]
  · norm_num [pm10Breakpoints, List.chain'_cons]
  · intro i
    fin_cases i <;> norm_num [bpAt, pm25Breakpoints, List.getD, interpAqi]
  · intro i
    fin_cases i <;> norm_num [bpAt, pm10Breakpoints, List.getD, interpAqi]

/-- C5 (counterexample): the dashboard's `calculate_aqi` does not return the
raw interpolation formula value: at PM2.5 concentration `c = 1` the first
bracket `(0, 12, 0, 50)` matches and the formula gives `25/6 ≈ 4.17`, but the
function returns the rounded value `4`. -/
theorem aqiFormula_counterexample :
    findBracket 1 pm25Breakpoints = some ⟨0, 12, 0, 50⟩ ∧
    interpAqi ⟨0, 12, 0, 50⟩ 1 = 25/6 ∧
    calculateAqiDashboard 1 pm25Breakpoints = 4 ∧
    (4 : ℚ) ≠ 25/6 := by
  refine ⟨?_, ?_, ?_, ?_⟩
  · norm_num [findBracket, pm25Breakpoints]
  · norm_num [interpAqi]
  · norm_num [calculateAqiDashboard, aqiLoopDashboard, pm25Breakpoints, interpAqi, pyRound]
  · norm_num

/-- C5 (amended): whenever some bracket contains `c`, the forecaster's
`calculate_aqi` returns exactly the interpolation formula value of the first
such bracket, while the dashboard's returns that value rounded half-to-even;
whenever no bracket contains `c` the forecaster returns 500, and the dashboard
returns 500 above the last `bp_high` and 0 otherwise; in particular both
return 500 for every concentration strictly above the last bracket's
`bp_high` of their table. -/
theorem calculateAqi_first_bracket_and_ceiling :
    (∀ (c : ℚ) (tab : List Breakpoint) (b : Breakpoint), findBracket c tab = some b →
      calculateAqiForecast c tab = interpAqi b c ∧
      calculateAqiDashboard c tab = (pyRound (interpAqi b c) : ℚ)) ∧
    (∀ (c : ℚ) (tab : List Breakpoint), findBracket c tab = none →
      calculateAqiForecast c tab = 500 ∧
      calculateAqiDashboard c tab = (if lastBpHigh tab < c then 500 else 0)) ∧
    (∀ c : ℚ, (3504/10 : ℚ) < c →
      calculateAqiForecast c pm25Breakpoints = 500 ∧
      calculateAqiDashboard c pm25Breakpoints = 500) ∧
    (∀ c : ℚ, (504 : ℚ) < c →
      calculateAqiForecast c pm10Breakpoints = 500 ∧
      calculateAqiDashboard c pm10Breakpoints = 500) := by
  refine ⟨?_, ?_, ?_, ?_⟩
  · intro c tab b h
    exact ⟨calculateAqiForecast_of_findBracket_some h,
      by simp [calculateAqiDashboard, aqiLoopDashboard_of_findBracket_some h]⟩
  · intro c tab h
    exact ⟨calculateAqiForecast_of_findBracket_none h,
      by simp [calculateAqiDashboard, aqiLoopDashboard_of_findBracket_none h]⟩
  · intro c hc
    have h := findBracket_pm25_eq_none_of_gt hc
    have hlast : lastBpHigh pm25Breakpoints < c := by
      simpa [lastBpHigh, pm25Breakpoints] using hc
    refine ⟨calculateAqiForecast_of_findBracket_none h, ?_⟩
    simp [calculateAqiDashboard, aqiLoopDashboard_of_findBracket_none h, hlast]
  · intro c hc
    have h := findBracket_pm10_eq_none_of_gt hc
    have hlast : lastBpHigh pm10Breakpoints < c := by
      simpa [lastBpHigh, pm10Breakpoints] using hc
    refine ⟨calculateAqiForecast_of_findBracket_none h, ?_⟩
    simp [calculateAqiDashboard, aqiLoopDashboard_of_findBracket_none h, hlast]

/-- C5 (witness): the amended theorem applied at concrete inputs: `c = 10`
falls in the first PM2.5 bracket and both functions agree with the (rounded)
formula; `c = 400` is above the PM2.5 table's last `bp_high` and both return
500. -/
theorem calculateAqi_first_bracket_and_ceiling_witness :
    (findBracket 10 pm25Breakpoints = some ⟨0, 12, 0, 50⟩ ∧
      calculateAqiForecast 10 pm25Breakpoints = interpAqi ⟨0, 12, 0, 50⟩ 10) ∧
    ((3504/10 : ℚ) < 400 ∧ calculateAqiForecast 400 pm25Breakpoints = 500) :=
  ⟨⟨by norm_num [findBracket, pm25Breakpoints],
    (calculateAqi_first_bracket_and_ceiling.1 10 pm25Breakpoints ⟨0, 12, 0, 50⟩
      (by norm_num [findBracket, pm25Breakpoints])).1⟩,
   ⟨by norm_num,
    (calculateAqi_first_bracket_and_ceiling.2.2.1 400 (by norm_num)).1⟩⟩

/-! ## Derived physical features: training time vs inference time -/

/-- `np.clip(x, lo, hi)`. -/
def npClip (x lo hi : ℚ) : ℚ := min hi (max lo x)

/-- `enhanced_aviation_ml.calculate_visibility` (training-time `Visibility_Est`):
`np.clip(50 / (1 + pm25/50 + pm10/100 + dust/200), 0.1, 50)`. -/
def calculate_visibility (pm25 pm10 dust : ℚ) : ℚ :=
  npClip (50 / (1 + pm25/50 + pm10/100 + dust/200)) (1/10) 50

/-- `enhanced_aviation_ml.calculate_turbulence_risk` (training-time
`Turbulence_Risk`): weighted sum of clipped wind, dust and temperature factors. -/
def calculate_turbulence_risk (windSpeed dust temperature : ℚ) : ℚ :=
  npClip (windSpeed / 20) 0 1 * (4/10) + npClip (dust / 500) 0 1 * (4/10) +
    npClip (temperature / 50) 0 1 * (2/10)

/-- `enhanced_aviation_ml.calculate_air_density` (training-time `Air_Density`):
ideal-gas density with a small humidity correction factor. -/
def calculate_air_density (tempC pressureHpa humidityPct : ℚ) : ℚ :=
  (pressureHpa * 100) / ((28705/100) * (tempC + 27315/100)) *
    (1 - humidityPct/100 * (2/100))

/-- Trailing mean with `min_periods = w` (pandas `rolling(w).mean()` default):
`none` for the first `w - 1` positions. -/
def rollingMeanStrict (w : ℕ) (xs : List ℚ) (i : ℕ) : Option ℚ :=
  if i + 1 < w then none
  else some (((xs.take (i + 1)).drop (i + 1 - w)).sum / (w : ℚ))

/-- Training-time `Pressure_Stability` of row `i`:
`abs(pressure - pressure.rolling(24).mean())` over the pressure column. -/
def trainPressureStability (pressures : List ℚ) (i : ℕ) : Option ℚ :=
  (rollingMeanStrict 24 pressures i).map (fun m => |pressures.getD i 0 - m|)

/-- Training-time `Temp_Humidity_Index`: `temperature * (humidity / 100)`. -/
def trainTempHumidityIndex (temperature humidity : ℚ) : ℚ :=
  temperature * (humidity / 100)

/-- Inference-time `Visibility_Est` from
`ml_prediction_service.create_features_for_location`:
`50 / (1 + dust/200 + aod*100)`. -/
def inferVisibilityEst (dust aod : ℚ) : ℚ := 50 / (1 + dust/200 + aod * 100)

/-- Inference-time `Turbulence_Risk`: `np.clip(wind_speed/25 + dust/200, 0, 1)`. -/
def inferTurbulenceRisk (windSpeed dust : ℚ) : ℚ :=
  npClip (windSpeed/25 + dust/200) 0 1

/-- Inference-time `Air_Density`: `(pressure*100) / (287.05 * (temperature + 273.15))`
(no humidity correction). -/
def inferAirDensity (tempC pressureHpa : ℚ) : ℚ :=
  (pressureHpa * 100) / ((28705/100) * (tempC + 27315/100))

/-- Inference-time `Pressure_Stability`: `abs(pressure - 1013.25) / 50`. -/
def inferPressureStability (pressureHpa : ℚ) : ℚ :=
  |pressureHpa - 101325/100| / 50

/-- Inference-time `Temp_Humidity_Index`: `temperature * (1 + humidity/100)`. -/
def inferTempHumidityIndex (temperature humidity : ℚ) : ℚ :=
  temperature * (1 + humidity/100)

/-- C2 (counterexample): the temperature-humidity index is computed by
different formulas at training and inference time: at temperature 25 °C and
humidity 60 % the Feature Synthesizer produces `25 * (60/100) = 15` while the
Inference Adapter produces `25 * (1 + 60/100) = 40`. -/
theorem derivedFeature_formulas_counterexample :
    trainTempHumidityIndex 25 60 = 15 ∧
    inferTempHumidityIndex 25 60 = 40 ∧
    (15 : ℚ) ≠ 40 := by
  refine ⟨?_, ?_, ?_⟩ <;> norm_num [trainTempHumidityIndex, inferTempHumidityIndex]

/-- C2 (amended): the Inference Adapter computes each of the five derived
physical features by a formula different from the training-time Feature
Synthesizer; on the default inference input (temperature 25, humidity 60,
wind speed 10, pressure 1013 with a constant 24-hour pressure history,
dust 50, AOD 0.2, and training-side PM2.5 = 20, PM10 = 40) all five features
disagree between the two. -/
theorem derivedFeature_formulas_differ :
    (calculate_visibility 20 40 50 = 1000/41 ∧ inferVisibilityEst 50 (1/5) = 40/17 ∧
      (1000/41 : ℚ) ≠ 40/17) ∧
    (calculate_turbulence_risk 10 50 25 = 17/50 ∧ inferTurbulenceRisk 10 50 = 13/20 ∧
      (17/50 : ℚ) ≠ 13/20) ∧
    calculate_air_density 25 1013 60 ≠ inferAirDensity 25 1013 ∧
    (trainPressureStability (List.replicate 24 1013) 23 = some 0 ∧
      inferPressureStability 1013 = 1/200 ∧ (0 : ℚ) ≠ 1/200) ∧
    (trainTempHumidityIndex 25 60 = 15 ∧ inferTempHumidityIndex 25 60 = 40 ∧
      (15 : ℚ) ≠ 40) := by
  refine ⟨⟨?_, ?_, ?_⟩, ⟨?_, ?_, ?_⟩, ?_, ⟨?_, ?_, ?_⟩, ⟨?_, ?_, ?_⟩⟩ <;>
    norm_num [calculate_visibility, inferVisibilityEst, calculate_turbulence_risk,
      inferTurbulenceRisk, calculate_air_density, inferAirDensity,
      trainPressureStability, rollingMeanStrict, inferPressureStability,
      trainTempHumidityIndex, inferTempHumidityIndex, npClip,
      min_def, max_def, abs_eq_max_neg, List.replicate]

/-! ## Inference-time feature reconciliation (`predict_conditions`) -/

/-- The zero-fill loop of `predict_conditions`: append `(col, 0)` for every
training-time column missing from the provided feature dict
(`for col in missing_cols: feature_df[col] = 0`). -/
def fillMissing (cols : List String) (features : List (String × ℚ)) :
    List (String × ℚ) :=
  features ++ (cols.filter (fun c => (features.lookup c).isNone)).map (fun c => (c, 0))

/-- Column reordering `feature_df = feature_df[self.feature_columns]`: select
the training-time columns, in training-time order, from the filled dict.
A `none` entry would be a `KeyError` in the source. -/
def reorderedRow (cols : List String) (features : List (String × ℚ)) :
    List (Option ℚ) :=
  cols.map (fun c => (fillMissing cols features).lookup c)

/-- The hard-coded fallback values used when a model raises during
`predict_conditions` (`fallback_values.get(target_name, 0)`). -/
def fallbackValue (target : String) : ℚ :=
  if target = "PM2.5" then 20
  else if target = "PM10" then 40
  else if target = "Visibility_Est" then 15
  else if target = "Flight_Safety_Score" then 7/10
  else if target = "Overall_AQI" then 50
  else 0

/-- `predict_conditions`: build the reordered feature row, apply every stored
model (a model that raises is modelled by returning `none` and replaced by its
fallback value), and clamp successful predictions with `max(0, pred)`. -/
def predict_conditions (cols : List String) (features : List (String × ℚ))
    (models : List (String × (List (Option ℚ) → Option ℚ))) :
    List (String × ℚ) :=
  models.map (fun m =>
    (m.1, match m.2 (reorderedRow cols features) with
      | some v => max 0 v
      | none => fallbackValue m.1))

lemma lookup_append_some {α : Type} [BEq α] {β : Type} {l1 l2 : List (α × β)}
    {k : α} {v : β} (h : l1.lookup k = some v) :
    (l1 ++ l2).lookup k = some v := by
  induction l1 with
  | nil => simp [List.lookup] at h
  | cons hd tl ih =>
    by_cases hk : k == hd.1
    · simpa [List.lookup, hk] using by simpa [List.lookup, hk] using h
    · simp [List.lookup, hk] at h ⊢
      exact ih h

lemma lookup_append_none {α : Type} [BEq α] {β : Type} {l1 l2 : List (α × β)}
    {k : α} (h : l1.lookup k = none) :
    (l1 ++ l2).lookup k = l2.lookup k := by
  induction l1 with
  | nil => simp
  | cons hd tl ih =>
    by_cases hk : k == hd.1
    · simp [List.lookup, hk] at h
    · simp [List.lookup, hk] at h ⊢
      exact ih h

lemma lookup_map_zero {l : List String} {k : String} (h : k ∈ l) :
    (l.map (fun c => (c, (0 : ℚ)))).lookup k = some 0 := by
  induction l with
  | nil => simp at h
  | cons hd tl ih =>
    by_cases hk : k = hd
    · subst hk
      simp [List.lookup]
    · rcases List.mem_cons.mp h with h | h
      · exact absurd h hk
      · have hb : (k == hd) = false := by simpa using hk
        simpa [List.lookup, hb] using ih h

lemma fillMissing_lookup (cols : List String) (features : List (String × ℚ))
    {c : String} (hc : c ∈ cols) :
    (fillMissing cols features).lookup c = some ((features.lookup c).getD 0) := by
  rcases h : features.lookup c with _ | v
  · have hmem : c ∈ cols.filter (fun c => (features.lookup c).isNone) := by
      simp [List.mem_filter, hc, h]
    simpa [fillMissing, lookup_append_none h] using lookup_map_zero hmem
  · simp [fillMissing, lookup_append_some h]

/-- Column-name test `col.startswith('City_')` used by
`forecast_next_48_hours` to separate base features from one-hot site columns. -/
def isCityColumn (c : String) : Bool := List.isPrefixOf ("City_").data c.data

/-- `current_conditions[base_features]`: pandas label selection of the listed
columns; raises `KeyError` (modelled by naming a missing column) when a
requested column is absent from the frame. -/
def selectColumns (cols : List String) (conditions : List (String × ℚ)) :
    Except String (List (String × ℚ)) :=
  match cols with
  | [] => Except.ok []
  | c :: rest =>
    match conditions.lookup c with
    | some v => (selectColumns rest conditions).map (fun l => (c, v) :: l)
    | none => Except.error c

/-- Feature assembly of `forecast_next_48_hours` (lines 176–185): select the
non-City training columns from the request (`current_conditions[base_features]`,
which raises on any missing one), append the city dummies, zero-fill any
training column still missing (at that point only `City_` columns can be
missing), and reorder to the training-time column order. -/
def assembleForecastRow (featureColumns : List String)
    (conditions cityDummies : List (String × ℚ)) : Except String (List ℚ) :=
  (selectColumns (featureColumns.filter (fun c => !(isCityColumn c))) conditions).map
    (fun sel =>
      let x := sel ++ cityDummies
      let filled := x ++
        (featureColumns.filter (fun c => (x.lookup c).isNone)).map (fun c => (c, 0))
      featureColumns.map (fun c => (filled.lookup c).getD 0))

/-- `forecast_next_48_hours`: assemble the feature row and apply each stored
per-horizon model, clamping every prediction with `max(0, pred)`. -/
def forecast_next_48_hours (featureColumns : List String)
    (conditions cityDummies : List (String × ℚ))
    (models : List (String × (List ℚ → ℚ))) :
    Except String (List (String × ℚ)) :=
  (assembleForecastRow featureColumns conditions cityDummies).map (fun row =>
    models.map (fun m => (m.1, max 0 (m.2 row))))

lemma selectColumns_error_of_missing {cols : List String}
    {conditions : List (String × ℚ)} {c : String} (hc : c ∈ cols)
    (hnone : conditions.lookup c = none) :
    ∃ e, selectColumns cols conditions = Except.error e := by
  induction cols with
  | nil => simp at hc
  | cons hd rest ih =>
    rcases hlk : conditions.lookup hd with _ | v
    · exact ⟨hd, by simp [selectColumns, hlk]⟩
    · rcases List.mem_cons.mp hc with rfl | hmem
      · simp [hlk] at hnone
      · rcases ih hmem with ⟨e, he⟩
        exact ⟨e, by simp [selectColumns, hlk, he, Except.map]⟩

/-- C6 (counterexample): a request missing a non-derivable base training
column: `lag1` is in the training-time column order, is not a `City_` one-hot
column, and is absent from the request, yet the column selection of
`forecast_next_48_hours` raises `KeyError('lag1')` — the zero-fill loop is
never reached on this path, falsifying the no-raise/zero-fill claim for the
claim's second cited source. -/
theorem forecast48_keyerror_counterexample :
    (("lag1") ∈ [("lag1"), ("City_Muscat")]) ∧
    isCityColumn ("lag1") = false ∧
    List.lookup ("lag1") ([] : List (String × ℚ)) = none ∧
    assembleForecastRow [("lag1"), ("City_Muscat")] [] [(("City_Muscat"), 1)] =
      Except.error ("lag1") := by
  refine ⟨by decide, by decide, rfl, ?_⟩
  simp [assembleForecastRow, selectColumns, isCityColumn, List.lookup, Except.map]

/-- C6 (amended): `predict_conditions` satisfies the claim in full: every
missing training-time column (including one-hot indicators for unseen sites)
is zero-filled before the feature row is reordered, the reorder never fails,
and every prediction (clamped model output or fallback) is non-negative.
`forecast_next_48_hours`, however, selects the non-City training columns from
the request before its fill loop, so a request missing any non-derivable base
column raises `KeyError` there (only missing `City_` columns are tolerated);
on its success path every forecast value is clamped non-negative. -/
theorem predict_ok_forecast48_raises :
    (∀ (cols : List String) (features : List (String × ℚ)),
      reorderedRow cols features =
        cols.map (fun c => some ((features.lookup c).getD 0))) ∧
    (∀ (cols : List String) (features : List (String × ℚ))
      (models : List (String × (List (Option ℚ) → Option ℚ)))
      (p : String × ℚ), p ∈ predict_conditions cols features models → 0 ≤ p.2) ∧
    (∀ (featureColumns : List String) (conditions cityDummies : List (String × ℚ))
      (c : String), c ∈ featureColumns → isCityColumn c = false →
      conditions.lookup c = none →
      ∃ e, assembleForecastRow featureColumns conditions cityDummies =
        Except.error e) ∧
    (∀ (featureColumns : List String) (conditions cityDummies : List (String × ℚ))
      (models : List (String × (List ℚ → ℚ))) (result : List (String × ℚ))
      (p : String × ℚ),
      forecast_next_48_hours featureColumns conditions cityDummies models =
        Except.ok result → p ∈ result → 0 ≤ p.2) := by
  refine ⟨?_, ?_, ?_, ?_⟩
  · intro cols features
    refine List.map_congr_left ?_
    intro c hc
    exact fillMissing_lookup cols features hc
  · intro cols features models p hp
    rcases List.mem_map.mp hp with ⟨m, -, rfl⟩
    rcases hm : m.2 (reorderedRow cols features) with _ | v
    · simp only [hm]
      unfold fallbackValue
      split_ifs <;> norm_num
    · simp only [hm]
      exact le_max_left 0 v
  · intro featureColumns conditions cityDummies c hcmem hcity hnone
    have hfmem : c ∈ featureColumns.filter (fun c => !(isCityColumn c)) := by
      simp [List.mem_filter, hcmem, hcity]
    rcases selectColumns_error_of_missing hfmem hnone with ⟨e, he⟩
    exact ⟨e, by simp [assembleForecastRow, he, Except.map]⟩
  · intro featureColumns conditions cityDummies models result p hres hp
    rcases hasm : assembleForecastRow featureColumns conditions cityDummies
      with e | row
    · simp [forecast_next_48_hours, hasm, Except.map] at hres
    · simp only [forecast_next_48_hours, hasm, Except.map] at hres
      injection hres with hres
      subst hres
      rcases List.mem_map.mp hp with ⟨m, -, rfl⟩
      exact le_max_left 0 (m.2 row)

/-- C6 (witness): the amended theorem applied at concrete requests: an empty
request has its only training column zero-filled and its prediction through
`predict_conditions` is non-negative; a request missing the base column
`lag1` makes `forecast_next_48_hours` raise; and on a request with all base
columns present the clamped forecast (a model that predicts -5 is clamped to
0) is non-negative. -/
theorem predict_ok_forecast48_raises_witness :
    (reorderedRow [("Visibility_Est")] [] = [some 0]) ∧
    ((0 : ℚ) ≤ (("PM2.5", (5 : ℚ))).2) ∧
    (∃ e, assembleForecastRow [("lag1"), ("City_Muscat")] []
      [(("City_Muscat"), 1)] = Except.error e) ∧
    ((0 : ℚ) ≤ (("pm25_1h", (0 : ℚ))).2) := by
  refine ⟨?_, ?_, ?_, ?_⟩
  · rw [predict_ok_forecast48_raises.1]
    simp
  · refine predict_ok_forecast48_raises.2.1 [("Visibility_Est")] []
      [(("PM2.5"), fun _ => some 5)] ("PM2.5", 5) ?_
    simp [predict_conditions]
  · exact predict_ok_forecast48_raises.2.2.1 [("lag1"), ("City_Muscat")] []
      [(("City_Muscat"), 1)] ("lag1") (by decide) (by decide) rfl
  · refine predict_ok_forecast48_raises.2.2.2 [("City_Muscat")] []
      [(("City_Muscat"), 1)] [(("pm25_1h"), fun _ => -5)]
      [(("pm25_1h"), (0 : ℚ))] ("pm25_1h", 0) ?_ ?_
    · have hmax : max (0 : ℚ) (-5) = 0 := by norm_num
      simp [forecast_next_48_hours, assembleForecastRow, selectColumns,
        isCityColumn, Except.map, List.lookup, hmax]
    · simp

/-! ## Horizon label construction (`train_forecast_models`) -/

/-- One prepared row of the forecasting table (post lag-warm-up dropna): its
site tag, timestamp and target pollutant measurement. -/
structure Row where
  city : String
  time : ℕ
  target : ℚ
deriving DecidableEq, Repr

/-- Label alignment of `train_forecast_models` for one horizon `h`:
`y = df[target].shift(-h).dropna()` is taken over the WHOLE concatenated
multi-site frame, so the label of positional row `i` is the target at
positional row `i + h`, and the feature rows are truncated to the label
length (`X_aligned = X.iloc[:len(y)]`). -/
def trainingPairs (h : ℕ) (rows : List Row) : List (Row × ℚ) :=
  (rows.take (rows.length - h)).zip ((rows.map Row.target).drop h)

/-- Retained row count for horizon `h` (`len(X_aligned)`). -/
def retainedCount (h : ℕ) (rows : List Row) : ℕ := (trainingPairs h rows).length

/-- Modelled from the spec: the retained row count the specification requires
for horizon `h`, the per-site series length minus `h`, summed across sites. -/
def specRetainedCount (h : ℕ) (blocks : List (List Row)) : ℕ :=
  (blocks.map (fun b => b.length - h)).sum

/-- Two-site demonstration table: site A with rows at hours 0 and 1 (targets
10, 11) and site B with rows at hours 0 and 1 (targets 20, 21), site blocks
concatenated in sorted site order exactly as `prepare_forecast_data` emits. -/
def demoBlocks : List (List Row) :=
  [[⟨"A", 0, 10⟩, ⟨"A", 1, 11⟩], [⟨"B", 0, 20⟩, ⟨"B", 1, 21⟩]]

/-- The concatenated demonstration frame. -/
def demoRows : List Row := demoBlocks.flatten

/-- C1: evaluating the code's label construction at a concrete two-site table
with horizon 1: site A's last row (hour 1) is retained even though site A has
no measurement at hour 2, and its label is `20` — site B's hour-0
measurement, not a site-A value.  The per-site labelling and horizon-specific
per-site tail truncation the claim describes do not happen. -/
theorem label_shift_crosses_site_boundary :
    trainingPairs 1 demoRows =
      [(⟨"A", 0, 10⟩, 11), (⟨"A", 1, 11⟩, 20), (⟨"B", 0, 20⟩, 21)] ∧
    (∀ r ∈ demoRows, r.city = "A" → r.target ≠ 20) ∧
    (∀ r ∈ demoRows, r.city = "A" → r.time ≤ 1) := by
  refine ⟨rfl, ?_, ?_⟩ <;> decide

/-- C3: the retained row count for horizon `h` is globally `N - h` where `N`
is the length of the whole concatenated frame, not `Σ (nᵢ - h)` over sites:
on the two-site demonstration table (2 rows per site) with horizon 1 the code
retains 3 rows while the specified count is 2. -/
theorem retained_count_global_not_per_site :
    (∀ (h : ℕ) (rows : List Row), retainedCount h rows = rows.length - h) ∧
    retainedCount 1 demoRows = 3 ∧
    specRetainedCount 1 demoBlocks = 2 ∧
    (3 : ℕ) ≠ 2 := by
  refine ⟨?_, ?_, ?_, ?_⟩
  · intro h rows
    simp [retainedCount, trainingPairs]
  · decide
  · decide
  · decide

/-! ## Per-horizon training loop (`train_forecast_models`) -/

/-- The five forecast horizons, in loop order. -/
def forecastHorizons : List ℕ := [1, 6, 12, 24, 48]

/-- Key under which the model for pollutant `p` and horizon `h` is stored
(`f'pm25_{horizon}h'`). -/
def modelKey (p : String) (h : ℕ) : String := p ++ "_" ++ toString h ++ "h"

/-- One iteration of the training loop over a prepared frame of `n` rows:
horizon `h` retains `n - h` aligned rows; below 100 the horizon is skipped
(`continue`), otherwise the fitted PM2.5 and PM10 models for `h` are stored
(the opaque fitted model is represented by its horizon). -/
def trainStep (n : ℕ) (models : List (String × ℕ)) (h : ℕ) : List (String × ℕ) :=
  if n - h < 100 then models
  else models ++ [(modelKey ("pm25") h, h), (modelKey ("pm10") h, h)]

/-- The whole training loop of `train_forecast_models` on an `n`-row frame. -/
def train_forecast_models (n : ℕ) : List (String × ℕ) :=
  List.foldl (trainStep n) [] forecastHorizons

lemma foldl_trainStep_filter (n : ℕ) (l : List ℕ) (ms : List (String × ℕ)) :
    List.foldl (trainStep n) ms l =
      List.foldl (trainStep n) ms (l.filter (fun h => 100 ≤ n - h)) := by
  induction l generalizing ms with
  | nil => rfl
  | cons hd tl ih =>
    by_cases hc : n - hd < 100
    · have hf : ¬(100 ≤ n - hd) := by omega
      simp only [List.foldl_cons, List.filter_cons, trainStep, hc, if_pos,
        decide_eq_true_eq, hf, if_false]
      simpa [trainStep, hc] using ih ms
    · have hf : (100 ≤ n - hd) := by omega
      simp only [List.filter_cons, decide_eq_true_eq, hf, if_true, List.foldl_cons]
      exact ih _

lemma lookup_foldl_trainStep_none (n : ℕ) (l : List ℕ) (ms : List (String × ℕ))
    (k : String) (hms : ms.lookup k = none)
    (hk : ∀ h ∈ l, k ≠ modelKey ("pm25") h ∧ k ≠ modelKey ("pm10") h) :
    (List.foldl (trainStep n) ms l).lookup k = none := by
  induction l generalizing ms with
  | nil => simpa using hms
  | cons hd tl ih =>
    have hhd := hk hd (List.mem_cons_self hd tl)
    have htl : ∀ h ∈ tl, k ≠ modelKey ("pm25") h ∧ k ≠ modelKey ("pm10") h :=
      fun h hh => hk h (List.mem_cons_of_mem hd hh)
    refine ih (trainStep n ms hd) ?_ htl
    by_cases hc : n - hd < 100
    · simpa [trainStep, hc] using hms
    · have h1 : (k == modelKey ("pm25") hd) = false := by simpa using hhd.1
      have h2 : (k == modelKey ("pm10") hd) = false := by simpa using hhd.2
      simp [trainStep, hc, lookup_append_none hms, List.lookup, h1, h2]

lemma modelKey_ne_of_horizons {h h2 : ℕ} (hh : h ∈ forecastHorizons)
    (hh2 : h2 ∈ forecastHorizons) (hne : h ≠ h2) :
    (modelKey ("pm25") h ≠ modelKey ("pm25") h2 ∧
      modelKey ("pm25") h ≠ modelKey ("pm10") h2) ∧
    (modelKey ("pm10") h ≠ modelKey ("pm25") h2 ∧
      modelKey ("pm10") h ≠ modelKey ("pm10") h2) := by
  simp only [forecastHorizons, List.mem_cons, List.not_mem_nil, or_false] at hh hh2
  rcases hh with rfl | rfl | rfl | rfl | rfl <;>
    rcases hh2 with rfl | rfl | rfl | rfl | rfl <;>
    first
      | exact absurd rfl hne
      | exact ⟨⟨by decide, by decide⟩, ⟨by decide, by decide⟩⟩

/-- C8: a horizon whose aligned training set has fewer than 100 rows is
skipped without storing a model and without aborting: the loop step leaves
the model store unchanged, the whole loop equals the loop over only the
sufficiently-populated horizons, and no model key for a skipped horizon ever
appears in the store. -/
theorem insufficient_horizon_skipped :
    (∀ (n : ℕ) (models : List (String × ℕ)) (h : ℕ), n - h < 100 →
      trainStep n models h = models) ∧
    (∀ n : ℕ, train_forecast_models n =
      List.foldl (trainStep n) [] (forecastHorizons.filter (fun h => 100 ≤ n - h))) ∧
    (∀ (n h : ℕ), h ∈ forecastHorizons → n - h < 100 →
      (train_forecast_models n).lookup (modelKey ("pm25") h) = none ∧
      (train_forecast_models n).lookup (modelKey ("pm10") h) = none) := by
  refine ⟨?_, ?_, ?_⟩
  · intro n models h hlt
    simp [trainStep, hlt]
  · intro n
    exact foldl_trainStep_filter n forecastHorizons []
  · intro n h hmem hlt
    rw [show train_forecast_models n = List.foldl (trainStep n) [] forecastHorizons
        from rfl, foldl_trainStep_filter n forecastHorizons []]
    have hkeys : ∀ p : String, p = "pm25" ∨ p = "pm10" →
        ∀ h2 ∈ forecastHorizons.filter (fun h2 => 100 ≤ n - h2),
        modelKey p h ≠ modelKey ("pm25") h2 ∧ modelKey p h ≠ modelKey ("pm10") h2 := by
      intro p hp h2 hh2
      have hh2m := List.mem_of_mem_filter hh2
      have hh2f : 100 ≤ n - h2 := by
        have := List.of_mem_filter hh2
        simpa using this
      have hne : h ≠ h2 := by
        rintro rfl
        omega
      have hkey := modelKey_ne_of_horizons hmem hh2m hne
      rcases hp with rfl | rfl
      · exact hkey.1
      · exact hkey.2
    constructor
    · exact lookup_foldl_trainStep_none n _ [] _ rfl
        (hkeys ("pm25") (Or.inl rfl))
    · exact lookup_foldl_trainStep_none n _ [] _ rfl
        (hkeys ("pm10") (Or.inr rfl))

/-- C8 (witness): the theorem applied at concrete inputs: on a 0-row frame
horizon 1 retains 0 < 100 rows and the step stores nothing; on a 105-row
frame horizon 6 retains 99 < 100 rows and no model for it is stored, while
the run continues. -/
theorem insufficient_horizon_skipped_witness :
    ((0 : ℕ) - 1 < 100 ∧ trainStep 0 [] 1 = []) ∧
    (6 ∈ forecastHorizons ∧ 105 - 6 < 100 ∧
      (train_forecast_models 105).lookup (modelKey ("pm25") 6) = none) :=
  ⟨⟨by norm_num, insufficient_horizon_skipped.1 0 [] 1 (by norm_num)⟩,
   ⟨by decide, by norm_num,
    (insufficient_horizon_skipped.2.2 105 6 (by decide) (by norm_num)).1⟩⟩

/-! ## Alert generation -/

/-- One horizon's forecast entry (`forecasts[f'{horizon}h']`): predicted PM2.5
and PM10 concentrations (timestamp omitted). -/
structure ForecastPred where
  horizon : String
  pm25 : ℚ
  pm10 : ℚ
deriving DecidableEq, Repr

/-- `overall_aqi = max(aqi_pm25, aqi_pm10)` in `generate_forecast_alerts`. -/
def overallAqi (p : ForecastPred) : ℚ :=
  max (calculateAqiForecast p.pm25 pm25Breakpoints)
    (calculateAqiForecast p.pm10 pm10Breakpoints)

/-- A forecast alert record (`horizon`, `level`, `aqi`; message and timestamp
omitted). -/
structure ForecastAlert where
  horizon : String
  level : String
  aqi : ℚ
deriving DecidableEq, Repr

/-- `generate_forecast_alerts`: one alert per forecast whose overall AQI
strictly exceeds 150 (HIGH) or, failing that, 100 (MODERATE). -/
def generate_forecast_alerts (fs : List ForecastPred) : List ForecastAlert :=
  fs.flatMap (fun p =>
    if 150 < overallAqi p then [⟨p.horizon, "HIGH", overallAqi p⟩]
    else if 100 < overallAqi p then [⟨p.horizon, "MODERATE", overallAqi p⟩]
    else [])

/-- The predicted quantities consumed by `enhanced_aviation_ml.generate_alerts`. -/
structure Predictions where
  pm25 : ℚ
  flightSafetyScore : ℚ
  visibilityEst : ℚ

/-- The three alert categories of `generate_alerts`. -/
inductive AlertType
  | airQuality
  | flightSafety
  | visibility
deriving DecidableEq, Repr

/-- An aviation alert (type and level; message and color omitted). -/
structure AviationAlert where
  type : AlertType
  level : String
deriving DecidableEq, Repr

/-- `enhanced_aviation_ml.generate_alerts`: air-quality alerts appended first
(PM2.5 above the `unhealthy` = 150.4 or `moderate` = 35.4 threshold), then
flight-safety alerts (score below 0.3 or 0.6), then visibility alerts
(estimate below 5 km). -/
def generate_alerts (p : Predictions) : List AviationAlert :=
  (if 1504/10 < p.pm25 then [⟨AlertType.airQuality, "HIGH"⟩]
   else if 354/10 < p.pm25 then [⟨AlertType.airQuality, "MODERATE"⟩] else []) ++
  (if p.flightSafetyScore < 3/10 then [⟨AlertType.flightSafety, "HIGH"⟩]
   else if p.flightSafetyScore < 6/10 then [⟨AlertType.flightSafety, "MODERATE"⟩] else []) ++
  (if p.visibilityEst < 5 then [⟨AlertType.visibility, "HIGH"⟩] else [])

/-- Position of an alert category in the fixed evaluation order of
`generate_alerts`. -/
def typeRank : AlertType → ℕ
  | AlertType.airQuality => 0
  | AlertType.flightSafety => 1
  | AlertType.visibility => 2

/-- C9: for predicted PM2.5 = 200 and PM10 = 50 the overall AQI is the
maximum of the per-pollutant AQIs, comes from the PM2.5 table's
`(150.5, 250.4, 201, 300)` bracket (value `9252/37 ≈ 250.05`), exceeds 150
and yields a HIGH air-quality alert; and for every prediction set the alerts
of `generate_alerts` appear in the fixed order air quality, then flight
safety, then visibility. -/
theorem pm25_dominates_and_alert_order :
    calculateAqiForecast 200 pm25Breakpoints =
      interpAqi ⟨1505/10, 2504/10, 201, 300⟩ 200 ∧
    calculateAqiForecast 200 pm25Breakpoints = 9252/37 ∧
    calculateAqiForecast 50 pm10Breakpoints = 1250/27 ∧
    overallAqi ⟨("1h"), 200, 50⟩ = 9252/37 ∧
    (150 : ℚ) < 9252/37 ∧
    generate_forecast_alerts [⟨("1h"), 200, 50⟩] = [⟨("1h"), "HIGH", 9252/37⟩] ∧
    (∀ p : Predictions, (generate_alerts p).Pairwise
      (fun a b => typeRank a.type ≤ typeRank b.type)) := by
  have h25 : calculateAqiForecast 200 pm25Breakpoints = 9252/37 := by
    norm_num [calculateAqiForecast, pm25Breakpoints, interpAqi]
  have h10 : calculateAqiForecast 50 pm10Breakpoints = 1250/27 := by
    norm_num [calculateAqiForecast, pm10Breakpoints, interpAqi]
  have hov : overallAqi ⟨("1h"), 200, 50⟩ = 9252/37 := by
    simp only [overallAqi, h25, h10]
    norm_num [max_def]
  refine ⟨?_, h25, h10, hov, by norm_num, ?_, ?_⟩
  · rw [h25]
    norm_num [interpAqi]
  · simp only [generate_forecast_alerts, List.flatMap_cons, List.flatMap_nil,
      List.append_nil, hov]
    norm_num
  · intro p
    unfold generate_alerts
    split_ifs <;> decide

/-! ## Model artifact save/load compatibility -/

/-- `save_forecast_models`: the persisted forecast artifact holds exactly the
keys `models` and `feature_columns`. -/
def save_forecast_models {α : Type} (models featureColumns : α) :
    List (String × α) :=
  [(("models"), models), (("feature_columns"), featureColumns)]

/-- Dict access `d[k]`: raises `KeyError k` (modelled as `Except.error k`)
when the key is absent. -/
def getKey {α : Type} (art : List (String × α)) (k : String) : Except String α :=
  match art.lookup k with
  | some v => Except.ok v
  | none => Except.error k

/-- The forecast branch of `DashboardMLPredictor.load_models`: read
`forecast_data['models']`, then `forecast_data['scalers']`, then
`forecast_data['feature_columns']`. -/
def loadForecastData {α : Type} (art : List (String × α)) :
    Except String (α × α × α) := do
  let m ← getKey art ("models")
  let s ← getKey art ("scalers")
  let f ← getKey art ("feature_columns")
  pure (m, s, f)

/-- The current-conditions branch of `load_models` (it reads the same three
keys from the flight-safety artifact). -/
def loadSafetyData {α : Type} (art : List (String × α)) :
    Except String (α × α × α) :=
  loadForecastData art

/-- Outcome of the `load_models` body: normal completion, or `sys.exit(code)`
from the exception handler. -/
inductive LoadResult
  | ok
  | exitCode (code : ℕ)
deriving DecidableEq, Repr

/-- `load_models`: process the flight-safety artifact if its file exists,
then the forecast artifact if its file exists, inside one `try`; a raised
`KeyError` is caught and the process exits with status 1. -/
def load_models {α : Type} (safetyArt forecastArt : Option (List (String × α))) :
    LoadResult :=
  let step1 : Except String Unit :=
    match safetyArt with
    | some a => (loadSafetyData a).map (fun _ => ())
    | none => Except.ok ()
  let step2 : Except String Unit :=
    match forecastArt with
    | some a => (loadForecastData a).map (fun _ => ())
    | none => Except.ok ()
  match step1.bind (fun _ => step2) with
  | Except.ok _ => LoadResult.ok
  | Except.error _ => LoadResult.exitCode 1

/-- C10: for every payload stored by `save_forecast_models`, the prediction
service's forecast-loading step raises `KeyError('scalers')` (the artifact
has no `scalers` key), and `load_models` with that artifact present always
terminates with exit status 1, whatever the other artifact file contains. -/
theorem forecast_artifact_never_loads :
    ∀ (α : Type) (models featureColumns : α)
      (safetyArt : Option (List (String × α))),
      loadForecastData (save_forecast_models models featureColumns) =
        Except.error ("scalers") ∧
      load_models safetyArt (some (save_forecast_models models featureColumns)) =
        LoadResult.exitCode 1 := by
  intro α models featureColumns safetyArt
  have hload : loadForecastData (save_forecast_models models featureColumns) =
      Except.error ("scalers") := by
    simp [loadForecastData, save_forecast_models, getKey, List.lookup,
      Bind.bind, Except.bind]
  refine ⟨hload, ?_⟩
  rcases safetyArt with _ | a
  · simp [load_models, hload, Except.bind, Except.map]
  · rcases h : loadSafetyData a with e | v <;>
      simp [load_models, h, hload, Except.bind, Except.map]

/-! ## Per-site lag and rolling features (`prepare_forecast_data`) -/

/-- One raw observation of a site's series: timestamp and the six base
measurements used for lag and rolling features. -/
structure Obs where
  time : ℕ
  pm25 : ℚ
  pm10 : ℚ
  temperature : ℚ
  humidity : ℚ
  windSpeed : ℚ
  dust : ℚ
deriving DecidableEq, Repr

/-- `df.sort_values('DateTime')` at the top of `create_time_series_features`. -/
def sortByTime (rows : List Obs) : List Obs :=
  rows.insertionSort (fun a b => a.time ≤ b.time)

/-- `df[col].shift(k)`: position `i` holds the value at position `i - k`; the
first `k` positions are NaN (`none`). -/
def shiftColumn (k : ℕ) (xs : List ℚ) : List (Option ℚ) :=
  (List.range xs.length).map (fun i => if i < k then none else xs.get? (i - k))

/-- Trailing mean at position `i` with window `w` and `min_periods = 1`
(`rolling(window=w, min_periods=1).mean()`): the mean of the last
`min (i+1) w` values. -/
def rollingMeanMin1 (w : ℕ) (xs : List ℚ) (i : ℕ) : ℚ :=
  let win := (xs.take (i + 1)).drop (i + 1 - w)
  win.sum / (win.length : ℚ)

/-- The whole rolling-mean column for window `w`. -/
def rollingColumn (w : ℕ) (xs : List ℚ) : List ℚ :=
  (List.range xs.length).map (rollingMeanMin1 w xs)

/-- The six base measurement columns of a site series, in source order. -/
def lagBaseColumns (rows : List Obs) : List (List ℚ) :=
  [rows.map Obs.pm25, rows.map Obs.pm10, rows.map Obs.temperature,
   rows.map Obs.humidity, rows.map Obs.windSpeed, rows.map Obs.dust]

/-- `create_time_series_features`: sort the site's rows by time, then build
every lag column (offsets 1, 2, 3, 6, 12, 24 of each base measurement) and
every rolling-mean column (windows 6 and 24 of each base measurement). -/
def create_time_series_features (rows : List Obs) :
    List (List (Option ℚ)) × List (List ℚ) :=
  let s := sortByTime rows
  (((lagBaseColumns s).map
      (fun xs => [1, 2, 3, 6, 12, 24].map (fun k => shiftColumn k xs))).flatten,
   ((lagBaseColumns s).map
      (fun xs => [6, 24].map (fun w => rollingColumn w xs))).flatten)

/-- The concatenated multi-site frame: each block's rows tagged with the
block's city name (`temp_df['City'] = city_name`, then `pd.concat`). -/
def allRows (blocks : List (String × List Obs)) : List (String × Obs) :=
  blocks.flatMap (fun b => b.2.map (fun o => (b.1, o)))

/-- The sub-frame `df[df['City'] == city]` of the concatenated frame. -/
def cityRows (blocks : List (String × List Obs)) (city : String) : List Obs :=
  ((allRows blocks).filter (fun p => p.1 == city)).map Prod.snd

/-- The lag and rolling features `prepare_forecast_data` computes for one
site: `create_time_series_features` on that city's sub-frame only. -/
def siteFeatures (blocks : List (String × List Obs)) (city : String) :
    List (List (Option ℚ)) × List (List ℚ) :=
  create_time_series_features (cityRows blocks city)

lemma filter_tag_ne {cname c : String} (h : (cname == c) = false)
    (rs : List Obs) :
    (rs.map (fun o => (cname, o))).filter (fun p => p.1 == c) = [] := by
  induction rs with
  | nil => rfl
  | cons o t ih => simp [h, ih]

lemma filter_tag_self (c : String) (rs : List Obs) :
    (rs.map (fun o => (c, o))).filter (fun p => p.1 == c) =
      rs.map (fun o => (c, o)) := by
  induction rs with
  | nil => rfl
  | cons o t ih => simp [ih]

lemma allRows_filter_of_not_mem {blocks : List (String × List Obs)} {c : String}
    (hc : c ∉ blocks.map Prod.fst) :
    (allRows blocks).filter (fun p => p.1 == c) = [] := by
  induction blocks with
  | nil => rfl
  | cons b t ih =>
    simp only [List.map_cons, List.mem_cons, not_or] at hc
    have hb : (b.1 == c) = false := beq_eq_false_iff_ne.mpr (Ne.symm hc.1)
    rw [allRows, List.flatMap_cons, List.filter_append, filter_tag_ne hb,
      List.nil_append]
    exact ih hc.2

lemma cityRows_eq {blocks : List (String × List Obs)} {c : String}
    {rs : List Obs} (hnd : (blocks.map Prod.fst).Nodup)
    (hmem : (c, rs) ∈ blocks) :
    cityRows blocks c = rs := by
  induction blocks with
  | nil => simp at hmem
  | cons b t ih =>
    simp only [List.map_cons, List.nodup_cons] at hnd
    rcases List.mem_cons.mp hmem with h | h
    · subst h
      have hfilter := allRows_filter_of_not_mem (c := c) hnd.1
      simp only [allRows] at hfilter
      rw [cityRows, allRows, List.flatMap_cons, List.filter_append,
        filter_tag_self, hfilter, List.append_nil, List.map_map]
      simp [Function.comp]
    · have hcmem : c ∈ t.map Prod.fst := List.mem_map_of_mem Prod.fst h
      have hne : (b.1 == c) = false :=
        beq_eq_false_iff_ne.mpr (fun he => hnd.1 (he ▸ hcmem))
      have hrec := ih hnd.2 h
      simp only [cityRows, allRows] at hrec ⊢
      rw [List.flatMap_cons, List.filter_append, filter_tag_ne hne,
        List.nil_append]
      exact hrec

lemma siteFeatures_eq_of_perm :
    ∀ (blocks blocks2 : List (String × List Obs)) (c : String) (rs : List Obs),
      blocks.Perm blocks2 →
      (blocks.map Prod.fst).Nodup →
      (c, rs) ∈ blocks →
      siteFeatures blocks c = create_time_series_features rs ∧
      siteFeatures blocks2 c = create_time_series_features rs := by
  intro blocks blocks2 c rs hperm hnd hmem
  have hnd2 : (blocks2.map Prod.fst).Nodup :=
    ((hperm.map Prod.fst).nodup_iff).mp hnd
  have hmem2 : (c, rs) ∈ blocks2 := hperm.mem_iff.mp hmem
  exact ⟨congrArg create_time_series_features (cityRows_eq hnd hmem),
    congrArg create_time_series_features (cityRows_eq hnd2 hmem2)⟩

/-- C7 (counterexample): in `load_and_prepare_data` the `Pressure_Stability`
rolling-24 mean runs over the whole concatenated multi-city pressure column
with no per-site grouping.  With site A contributing 24 rows at 1000 hPa
followed by site B contributing 24 rows at 1100 hPa, site B's first row
(global position 24) gets `|1100 - (23*1000 + 1100)/24| = 575/6`, a value
that reads site A's pressures; with the site blocks permuted so that B comes
first, the same row (now global position 0) has no value at all (its rolling
window is not yet full).  So a rolling value reads across a site boundary and
permuting site order changes it. -/
theorem pressureStability_crosses_sites_counterexample :
    trainPressureStability (List.replicate 24 1000 ++ List.replicate 24 1100) 24 =
      some (575/6) ∧
    trainPressureStability (List.replicate 24 1100 ++ List.replicate 24 1000) 0 =
      none ∧
    some ((575 : ℚ)/6) ≠ none := by
  refine ⟨?_, ?_, by simp⟩
  · norm_num [trainPressureStability, rollingMeanStrict, List.replicate,
      abs_eq_max_neg, max_def]
  · norm_num [trainPressureStability, rollingMeanStrict]

/-- C7 (amended): in the forecaster's `prepare_forecast_data` the claim
holds: no lag or rolling value reads across a site boundary — each site's
features are a function of its own series alone and permuting the site
blocks changes nothing; but in `load_and_prepare_data` the
`Pressure_Stability` rolling-24 mean is taken over the whole concatenated
frame with no per-site grouping, so early rows of a later site read the
previous site's pressures and permuting the site order changes their
values. -/
theorem lag_rolling_per_site_only_in_forecaster :
    (∀ (blocks blocks2 : List (String × List Obs)) (c : String) (rs : List Obs),
      blocks.Perm blocks2 →
      (blocks.map Prod.fst).Nodup →
      (c, rs) ∈ blocks →
      siteFeatures blocks c = create_time_series_features rs ∧
      siteFeatures blocks2 c = create_time_series_features rs) ∧
    (trainPressureStability (List.replicate 24 1000 ++ List.replicate 24 1100) 24 =
        some (575/6) ∧
      trainPressureStability (List.replicate 24 1100 ++ List.replicate 24 1000) 0 =
        none) := by
  refine ⟨siteFeatures_eq_of_perm, ?_, ?_⟩
  · norm_num [trainPressureStability, rollingMeanStrict, List.replicate,
      abs_eq_max_neg, max_def]
  · norm_num [trainPressureStability, rollingMeanStrict]

/-- A one-row demonstration series for site A. -/
def obsA : Obs := ⟨0, 1, 2, 3, 4, 5, 6⟩

/-- A one-row demonstration series for site B. -/
def obsB : Obs := ⟨0, 7, 8, 9, 10, 11, 12⟩

/-- C7 (witness): the amended theorem's forecaster half applied to a concrete
two-site input and its swapped permutation: site A's features are computed
from site A's own row alone, in both block orders. -/
theorem lag_rolling_per_site_only_in_forecaster_witness :
    siteFeatures [(("A"), [obsA]), (("B"), [obsB])] ("A") =
      create_time_series_features [obsA] ∧
    siteFeatures [(("B"), [obsB]), (("A"), [obsA])] ("A") =
      create_time_series_features [obsA] :=
  lag_rolling_per_site_only_in_forecaster.1
    [(("A"), [obsA]), (("B"), [obsB])]
    [(("B"), [obsB]), (("A"), [obsA])]
    ("A") [obsA]
    (List.Perm.swap (("B"), [obsB]) (("A"), [obsA]) [])
    (by decide) (by decide)

end Skylogic
